import Mathlib

/-!
Verification development for the Asterisk WebSocket transport
(src/agents/demo/app/Domains/Agent/Transports/asterisk/transport.py).

The definitions below are a shallow embedding of the transport code:
pure byte-level helpers (G.711 companding as implemented by CPython
audioop, base64 decoding as implemented by CPython binascii in
non-strict mode), the inbound session state machine
(AsteriskWSInputTransport), the outbound pacer
(AsteriskWSOutputTransport) and the connection manager
(AsteriskWSTransport._handle_connection).  Machine integers are
modelled as Nat / Int; byte strings as List Nat (each element a byte
value); fallible code returns Except PyErr.  Real-time waiting
(asyncio.wait_for, pacing sleeps) is modelled by per-chunk environment
records stating what the concurrent world did at each suspension
point.  The AudioResampler class (app/Utils/audio.py) is not part of
the sources; following the spec it is an opaque PCM transformation and
is passed as a function parameter wherever the code would call it.
-/

deriving instance DecidableEq for Except

/-- Python exception kinds that the modelled code can raise. -/
inductive PyErr
  | jsonDecodeError
  | binasciiError
  | valueError
deriving DecidableEq

/- ----------------------------------------------------------------
   G.711 companding, as implemented by CPython audioop
   (Modules/audioop.c), which transport.py calls via
   audioop.lin2ulaw / ulaw2lin / lin2alaw / alaw2lin with width 2.
   ---------------------------------------------------------------- -/

/-- Segment end table for u-law encoding (seg_uend in audioop.c). -/
def segUend : List Int := [0x3F, 0x7F, 0xFF, 0x1FF, 0x3FF, 0x7FF, 0xFFF, 0x1FFF]

/-- Segment end table for A-law encoding (seg_aend in audioop.c). -/
def segAend : List Int := [0x1F, 0x3F, 0x7F, 0xFF, 0x1FF, 0x3FF, 0x7FF, 0xFFF]

/-- Linear search used by the audioop companders: index of the first
table entry that is at least val, or the table size if none is. -/
def searchSeg (val : Int) : List Int → Nat
  | [] => 0
  | t :: ts => if val ≤ t then 0 else searchSeg val ts + 1

/-- Encoder st_14linear2ulaw from audioop.c: 14-bit linear sample to
a u-law byte (BIAS 0x84, CLIP 8159, bit-inverted output). -/
def st14linear2ulaw (pcmVal : Int) : Nat :=
  let mask : Nat := if pcmVal < 0 then 0x7F else 0xFF
  let mag : Int := if pcmVal < 0 then -pcmVal else pcmVal
  let magc : Int := if mag > 8159 then 8159 else mag
  let v : Nat := (magc + 33).toNat
  let seg : Nat := searchSeg (Int.ofNat v) segUend
  if seg ≥ 8 then 0x7F ^^^ mask
  else (((seg <<< 4) ||| ((v >>> (seg + 1)) &&& 0xF)) ^^^ mask)

/-- Decoder st_ulaw2linear16 from audioop.c: u-law byte to a 16-bit
linear sample. -/
def stUlaw2linear16 (b : Nat) : Int :=
  let u : Nat := 255 - (b &&& 0xFF)
  let t : Nat := (((u &&& 0xF) <<< 3) + 0x84) <<< ((u &&& 0x70) >>> 4)
  if u &&& 0x80 ≠ 0 then (0x84 : Int) - (t : Int) else (t : Int) - 0x84

/-- Encoder st_linear2alaw from audioop.c: 13-bit linear sample to an
A-law byte (even-bit inversion with 0x55). -/
def stLinear2alaw (pcmVal : Int) : Nat :=
  let mask : Nat := if pcmVal ≥ 0 then 0xD5 else 0x55
  let p : Int := if pcmVal ≥ 0 then pcmVal else -pcmVal - 1
  let seg : Nat := searchSeg p segAend
  if seg ≥ 8 then 0x7F ^^^ mask
  else
    let pn : Nat := p.toNat
    let q : Nat := if seg < 2 then (pn >>> 1) &&& 0xF else (pn >>> seg) &&& 0xF
    ((seg <<< 4) ||| q) ^^^ mask

/-- Decoder st_alaw2linear16 from audioop.c: A-law byte to a 16-bit
linear sample. -/
def stAlaw2linear16 (b : Nat) : Int :=
  let a : Nat := (b &&& 0xFF) ^^^ 0x55
  let tBase : Nat := (a &&& 0xF) <<< 4
  let seg : Nat := (a &&& 0x70) >>> 4
  let t : Nat :=
    if seg = 0 then tBase + 8
    else if seg = 1 then tBase + 0x108
    else (tBase + 0x108) <<< (seg - 1)
  if a &&& 0x80 ≠ 0 then (t : Int) else -(t : Int)

/-- Per-sample u-law encoding of a 16-bit sample: audioop.lin2ulaw
with width 2 feeds the sample arithmetically shifted right by 2 into
st_14linear2ulaw; the arithmetic shift is floor division by 4. -/
def ulawEncodeSample (x : Int) : Nat := st14linear2ulaw (Int.fdiv x 4)

/-- Per-sample u-law decoding to a 16-bit sample (audioop.ulaw2lin
with width 2). -/
def ulawDecodeSample (b : Nat) : Int := stUlaw2linear16 b

/-- Per-sample A-law encoding of a 16-bit sample: audioop.lin2alaw
with width 2 feeds the sample arithmetically shifted right by 3 into
st_linear2alaw. -/
def alawEncodeSample (x : Int) : Nat := stLinear2alaw (Int.fdiv x 8)

/-- Per-sample A-law decoding to a 16-bit sample (audioop.alaw2lin
with width 2). -/
def alawDecodeSample (b : Nat) : Int := stAlaw2linear16 b

/- ----------------------------------------------------------------
   16-bit little-endian sample packing, as audioop reads and writes
   width-2 samples on a little-endian host.
   ---------------------------------------------------------------- -/

/-- Interpretation of a 16-bit unsigned value as a signed sample. -/
def toSigned16 (n : Nat) : Int :=
  if n % 65536 < 32768 then ((n % 65536 : Nat) : Int)
  else ((n % 65536 : Nat) : Int) - 65536

/-- Reduction of a signed sample to its 16-bit unsigned encoding. -/
def toUnsigned16 (x : Int) : Nat := (x % 65536).toNat

/-- Little-endian byte pairs to signed 16-bit samples. -/
def bytesToPcm16 : List Nat → List Int
  | lo :: hi :: rest => toSigned16 (lo % 256 + 256 * (hi % 256)) :: bytesToPcm16 rest
  | _ => []

/-- Signed 16-bit samples to little-endian byte pairs. -/
def pcm16ToBytes : List Int → List Nat
  | [] => []
  | x :: xs => toUnsigned16 x % 256 :: toUnsigned16 x / 256 :: pcm16ToBytes xs

/- ----------------------------------------------------------------
   Base64, as transport.py uses it: base64.b64decode (non-strict
   binascii.a2b_base64 semantics) and base64.b64encode.
   ---------------------------------------------------------------- -/

/-- Value of a base64 alphabet character, none for a non-alphabet
character (table_a2b_base64 in binascii.c). -/
def b64CharVal (c : Nat) : Option Nat :=
  if 65 ≤ c ∧ c ≤ 90 then some (c - 65)
  else if 97 ≤ c ∧ c ≤ 122 then some (c - 71)
  else if 48 ≤ c ∧ c ≤ 57 then some (c + 4)
  else if c = 43 then some 62
  else if c = 47 then some 63
  else none

/-- Main loop of binascii.a2b_base64 in non-strict mode: non-alphabet
characters are discarded, a pad sequence completing a quad ends the
data, and a leftover partial quad at the end of input is an error
(Incorrect padding). State: remaining input, quad position, pending
bits, consecutive pad count, accumulated output (reversed). -/
def a2bBase64Loop : List Nat → Nat → Nat → Nat → List Nat → Except PyErr (List Nat)
  | [], quadPos, _, _, acc =>
    if quadPos = 0 then .ok acc.reverse else .error PyErr.binasciiError
  | c :: cs, quadPos, leftChar, pads, acc =>
    if c = 61 then
      if quadPos ≥ 2 ∧ quadPos + (pads + 1) ≥ 4 then .ok acc.reverse
      else a2bBase64Loop cs quadPos leftChar (pads + 1) acc
    else
      match b64CharVal c with
      | none => a2bBase64Loop cs quadPos leftChar pads acc
      | some v =>
        match quadPos with
        | 0 => a2bBase64Loop cs 1 v 0 acc
        | 1 => a2bBase64Loop cs 2 (v &&& 0xF) 0 (((leftChar <<< 2) ||| (v >>> 4)) :: acc)
        | 2 => a2bBase64Loop cs 3 (v &&& 0x3) 0 (((leftChar <<< 4) ||| (v >>> 2)) :: acc)
        | _ => a2bBase64Loop cs 0 0 0 (((leftChar <<< 6) ||| v) :: acc)

/-- Model of base64.b64decode on a Python str argument. -/
def pyB64Decode (s : String) : Except PyErr (List Nat) :=
  a2bBase64Loop (s.data.map Char.toNat) 0 0 0 []

/-- Character of the base64 alphabet at a 6-bit index. -/
def b64EncChar (n : Nat) : Nat :=
  if n < 26 then 65 + n
  else if n < 52 then 97 + (n - 26)
  else if n < 62 then 48 + (n - 52)
  else if n = 62 then 43 else 47

/-- Model of base64.b64encode: groups of three bytes become four
alphabet characters, with pad characters for a final partial group. -/
def b64EncodeBytes : List Nat → List Nat
  | a :: b :: c :: rest =>
    b64EncChar (a >>> 2) :: b64EncChar (((a &&& 3) <<< 4) ||| (b >>> 4)) ::
    b64EncChar (((b &&& 15) <<< 2) ||| (c >>> 6)) :: b64EncChar (c &&& 63) ::
    b64EncodeBytes rest
  | [a, b] => [b64EncChar (a >>> 2), b64EncChar (((a &&& 3) <<< 4) ||| (b >>> 4)),
               b64EncChar ((b &&& 15) <<< 2), 61]
  | [a] => [b64EncChar (a >>> 2), b64EncChar ((a &&& 3) <<< 4), 61, 61]
  | [] => []

/-- Byte values rendered as a Python str. -/
def bytesToStr (bs : List Nat) : String := ⟨bs.map Char.ofNat⟩

/- ----------------------------------------------------------------
   Transport data model (transport.py).
   ---------------------------------------------------------------- -/

/-- Configuration parameters (class AsteriskWSParams), with the
defaults from the source. -/
structure AsteriskWSParams where
  pipelineSampleRate : Nat := 16000
  ptimeMs : Nat := 20
deriving DecidableEq

/-- Frames pushed upward into the pipeline.  callStart models
CallStartFrame, pcmChunk models AudioRawFrame, dtmf models DTMFFrame,
hangup models HangupFrame, endOfStream models EndFrame. -/
inductive PipeFrame
  | callStart (callId : String) (codec : String) (sampleRate : Nat)
  | pcmChunk (pcmData : List Nat) (sampleRate : Nat) (numChannels : Nat)
  | dtmf (digit : String) (callId : Option String)
  | hangup (callId : Option String)
  | endOfStream
deriving DecidableEq

/-- Parsed JSON message fields used by the transport; a missing key is
none (dict.get returning the default). -/
structure InMsg where
  event : Option String := none
  codec : Option String := none
  channel : Option String := none
  digit : Option String := none
  media : Option String := none
deriving DecidableEq

/- ----------------------------------------------------------------
   Inbound session: AsteriskWSInputTransport.
   ---------------------------------------------------------------- -/

/-- Mutable state of AsteriskWSInputTransport.  The defaults mirror
its constructor; hasResampler records whether a resampler object was
created (its numeric behavior is the opaque resample parameter). -/
structure InState where
  callId : Option String := none
  codec : String := "slin16"
  sampleRate : Nat := 16000
  hasResampler : Bool := false
  running : Bool := false
deriving DecidableEq

/-- Codec to sample-rate table, method _get_sample_rate: a dict lookup
with default 8000. -/
def getSampleRate (codec : String) : Nat :=
  if codec = "ulaw" then 8000
  else if codec = "alaw" then 8000
  else if codec = "slin" then 8000
  else if codec = "slin16" then 16000
  else if codec = "slin12" then 12000
  else 8000

/-- Method AsteriskWSInputTransport.set_media_params: records codec,
rate and call id, creates a resampler exactly when the negotiated rate
differs from the pipeline rate, and sets the running flag. -/
def inSetMediaParams (p : AsteriskWSParams) (st : InState)
    (codec : String) (sampleRate : Nat) (callId : String) : InState :=
  { st with codec := codec, sampleRate := sampleRate, callId := some callId,
            hasResampler := sampleRate != p.pipelineSampleRate,
            running := true }

/-- Method _decode_audio: slin and slin16 pass through, ulaw and alaw
decode per sample to 16-bit PCM, and any other codec passes through. -/
def decodeForCodec (codec : String) (wireBytes : List Nat) : List Nat :=
  if codec = "slin" ∨ codec = "slin16" then wireBytes
  else if codec = "ulaw" then pcm16ToBytes (wireBytes.map ulawDecodeSample)
  else if codec = "alaw" then pcm16ToBytes (wireBytes.map alawDecodeSample)
  else wireBytes

/-- Method _handle_audio: a missing or empty media field is a silent
no-op; otherwise base64-decode (errors propagate), codec-decode,
resample when a resampler exists, and push one AudioRawFrame tagged
with the pipeline rate and one channel. -/
def handleMediaMsg (p : AsteriskWSParams) (resample : List Nat → List Nat)
    (st : InState) (msg : InMsg) : Except PyErr (InState × List PipeFrame) :=
  match msg.media with
  | none => .ok (st, [])
  | some s =>
    if s = "" then .ok (st, [])
    else do
      let wire ← pyB64Decode s
      let pcm := decodeForCodec st.codec wire
      let pcm2 := if st.hasResampler then resample pcm else pcm
      .ok (st, [PipeFrame.pcmChunk pcm2 p.pipelineSampleRate 1])

/-- Method AsteriskWSInputTransport.handle_message: dispatch on the
event field.  MEDIA_START applies defaults (codec slin16, channel
unknown), negotiates the rate from the codec alone and emits
CallStartFrame; MEDIA goes to the media handler; DTMF emits a frame
only for a nonempty digit; MEDIA_END clears running and emits
HangupFrame then EndFrame; anything else is ignored. -/
def handleMessage (p : AsteriskWSParams) (resample : List Nat → List Nat)
    (st : InState) (msg : InMsg) : Except PyErr (InState × List PipeFrame) :=
  if msg.event = some "MEDIA_START" then
    let codec := msg.codec.getD "slin16"
    let sampleRate := getSampleRate codec
    let callId := msg.channel.getD "unknown"
    let st1 := inSetMediaParams p st codec sampleRate callId
    .ok (st1, [PipeFrame.callStart callId codec sampleRate])
  else if msg.event = some "MEDIA" then handleMediaMsg p resample st msg
  else if msg.event = some "DTMF" then
    let digit := msg.digit.getD ""
    if digit = "" then .ok (st, [])
    else .ok (st, [PipeFrame.dtmf digit st.callId])
  else if msg.event = some "MEDIA_END" then
    .ok ({ st with running := false },
         [PipeFrame.hangup st.callId, PipeFrame.endOfStream])
  else .ok (st, [])

/-- Sequential processing of several messages by handle_message,
accumulating the pushed frames; the first propagated exception stops
the run. -/
def runMessages (p : AsteriskWSParams) (resample : List Nat → List Nat) :
    InState → List InMsg → Except PyErr (InState × List PipeFrame)
  | st, [] => .ok (st, [])
  | st, m :: ms => do
    let (st1, fs) ← handleMessage p resample st m
    let (st2, fs2) ← runMessages p resample st1 ms
    .ok (st2, fs ++ fs2)

/- ----------------------------------------------------------------
   Outbound pacer: AsteriskWSOutputTransport.
   ---------------------------------------------------------------- -/

/-- Mutable state of AsteriskWSOutputTransport with the constructor
defaults: no websocket yet, codec slin16 at 16000, the flow event
initially set (ready), generation zero and chunk size zero. -/
structure OutState where
  hasWebsocket : Bool := false
  codec : String := "slin16"
  sampleRate : Nat := 16000
  hasResampler : Bool := false
  flowReady : Bool := true
  flushGeneration : Nat := 0
  chunkSize : Nat := 0
deriving DecidableEq

/-- State built by the AsteriskWSOutputTransport constructor. -/
def initOutState : OutState := {}

/-- Method set_websocket. -/
def setWebsocket (st : OutState) : OutState := { st with hasWebsocket := true }

/-- Method AsteriskWSOutputTransport.set_media_params: chunk size in
bytes is the sample count per ptime (integer part of rate times ptime
over 1000) times two, and a resampler is created exactly when the
pipeline rate differs from the negotiated rate. -/
def outSetMediaParams (p : AsteriskWSParams) (st : OutState)
    (codec : String) (sampleRate : Nat) : OutState :=
  { st with codec := codec, sampleRate := sampleRate,
            chunkSize := (sampleRate * p.ptimeMs / 1000) * 2,
            hasResampler := p.pipelineSampleRate != sampleRate }

/-- Method set_flow_control: XOFF clears the flow event, XON sets it. -/
def setFlowControl (st : OutState) (paused : Bool) : OutState :=
  if paused then { st with flowReady := false } else { st with flowReady := true }

/-- Control events written to the websocket by the output transport. -/
inductive OutWireEvent
  | flushMedia
  | mediaChunk (payload : List Nat)
  | mediaEnd
deriving DecidableEq

/-- Method flush: the generation counter is incremented first and
unconditionally; then, only when a websocket is present, a FLUSH_MEDIA
event is sent best-effort (a send exception is caught and logged, so
the call always returns normally, which the total return type of this
model reflects).  The sendOk flag is the environment: whether the
websocket send would succeed. -/
def flushOut (st : OutState) (sendOk : Bool) : OutState × List OutWireEvent :=
  let st1 := { st with flushGeneration := st.flushGeneration + 1 }
  if st1.hasWebsocket then
    if sendOk then (st1, [OutWireEvent.flushMedia]) else (st1, [])
  else (st1, [])

/-- Method _encode_audio: slin and slin16 pass through, ulaw and alaw
encode 16-bit PCM per sample, and any other codec passes through. -/
def encodeForCodec (codec : String) (pcmBytes : List Nat) : List Nat :=
  if codec = "slin" ∨ codec = "slin16" then pcmBytes
  else if codec = "ulaw" then (bytesToPcm16 pcmBytes).map ulawEncodeSample
  else if codec = "alaw" then (bytesToPcm16 pcmBytes).map alawEncodeSample
  else pcmBytes

/-- Padding of a chunk shorter than the chunk size with zero bytes,
as the body of the send loop does before sending. -/
def padChunk (cs : Nat) (c : List Nat) : List Nat :=
  c ++ List.replicate (cs - c.length) 0

/-- Recursion worker for the chunk slicing, structural on a fuel
bound that dominates the number of loop iterations (the input length
suffices, since each iteration consumes at least one byte when the
chunk size is positive). -/
def chunkifyAux : Nat → Nat → List Nat → List (List Nat)
  | 0, _, _ => []
  | _, _, [] => []
  | fuel + 1, cs, x :: xs =>
    padChunk cs ((x :: xs).take cs) :: chunkifyAux fuel cs ((x :: xs).drop cs)

/-- Slices audio_encoded[i : i + chunk_size] for i in
range(0, len, chunk_size), each zero-padded to the chunk size; empty
for an empty input, mirroring a loop over an empty range. -/
def chunkify (cs : Nat) (xs : List Nat) : List (List Nat) :=
  if cs = 0 then [] else chunkifyAux xs.length cs xs

/-- Environment seen by one iteration of the send loop: the value of
the generation counter at the per-chunk check, the state of the flow
event at the check, whether a cleared flow event becomes set again
within the 5 second wait, and whether the websocket send succeeds. -/
structure ChunkEnv where
  gen : Nat
  flowReady : Bool
  flowBecameReady : Bool
  sendOk : Bool
deriving DecidableEq

/-- Way a _send_audio call finishes. -/
inductive SendOutcome
  | noWebsocket
  | completed
  | droppedStale
  | flowTimeout
  | sendError
deriving DecidableEq

/-- Per-chunk loop of _send_audio over already-prepared chunks, with
the chunk index selecting the environment record.  The checks run in
source order: generation mismatch returns (dropping the rest of the
frame), a flow gate that stays cleared for the 5 second wait returns,
a send failure returns after the failed send; otherwise the chunk is
delivered and the loop continues.  The pacing sleep has no observable
effect on the delivered data and carries no branch here. -/
def runSendLoop (myGen : Nat) (env : Nat → ChunkEnv) :
    List (List Nat) → Nat → List (List Nat) × SendOutcome
  | [], _ => ([], SendOutcome.completed)
  | c :: rest, k =>
    let e := env k
    if e.gen ≠ myGen then ([], SendOutcome.droppedStale)
    else if e.flowReady = false ∧ e.flowBecameReady = false then
      ([], SendOutcome.flowTimeout)
    else if e.sendOk = false then ([], SendOutcome.sendError)
    else
      let r := runSendLoop myGen env rest (k + 1)
      (c :: r.fst, r.snd)

/-- Method _send_audio: without a websocket it returns at once;
otherwise it captures the generation counter, resamples when a
resampler exists, encodes for the wire codec, and iterates
range(0, len, chunk_size) — a zero chunk_size makes the range
constructor raise ValueError before any iteration, even on empty
data; otherwise the per-chunk loop runs.  The function returns the
chunks actually delivered to the websocket and how the call ended. -/
def sendPcm (resample : List Nat → List Nat) (st : OutState)
    (framePcm : List Nat) (env : Nat → ChunkEnv) :
    Except PyErr (List (List Nat) × SendOutcome) :=
  if st.hasWebsocket = false then .ok ([], SendOutcome.noWebsocket)
  else
    let myGen := st.flushGeneration
    let pcmData := if st.hasResampler then resample framePcm else framePcm
    let encoded := encodeForCodec st.codec pcmData
    if st.chunkSize = 0 then .error PyErr.valueError
    else .ok (runSendLoop myGen env (chunkify st.chunkSize encoded) 0)

/- ----------------------------------------------------------------
   Connection manager: AsteriskWSTransport._handle_connection.
   ---------------------------------------------------------------- -/

/-- Inbound websocket frames after the json.loads step: text frames
that parsed to a JSON object, and frames whose parse raised
JSONDecodeError and fall back to the binary path. -/
inductive WireFrame
  | text (msg : InMsg)
  | binaryData (bytes : List Nat)
deriving DecidableEq

/-- Per-connection state seen by _handle_connection: the input and
output transport states plus the local call_id variable. -/
structure ConnState where
  inSt : InState
  outSt : OutState
  callId : Option String
deriving DecidableEq

/-- Observable actions of the connection manager: triggering the
on_call_start and on_call_end handlers, and pushing a frame into the
input transport. -/
inductive ConnEmit
  | callStartEvt (callId : String)
  | callEndEvt (callId : String)
  | pushed (f : PipeFrame)
deriving DecidableEq

/-- Truthiness of the optional call_id variable as Python evaluates
it in the finally block (None and the empty string are falsy). -/
def pyTruthy : Option String → Bool
  | none => false
  | some s => s != ""

/-- Discriminator for the on_call_end action. -/
def isCallEndEvt : ConnEmit → Bool
  | ConnEmit.callEndEvt _ => true
  | _ => false

/-- Handling of one received websocket frame inside the receive loop:
MEDIA_START configures both transports, fires on_call_start, pushes
CallStartFrame and assigns call_id; XOFF and XON go only to the flow
gate; every other parsed message goes to handle_message of the input
transport, whose exceptions (never JSONDecodeError) escape the inner
handler; a binary frame is re-wrapped as a MEDIA message whose media
field is the base64 text of the raw bytes. -/
def connStep (p : AsteriskWSParams) (resample : List Nat → List Nat)
    (cs : ConnState) (w : WireFrame) : ConnState × List ConnEmit × Option PyErr :=
  match w with
  | WireFrame.text msg =>
    if msg.event = some "MEDIA_START" then
      let codec := msg.codec.getD "slin16"
      let sampleRate := getSampleRate codec
      let callId := msg.channel.getD "unknown"
      let inSt1 := inSetMediaParams p cs.inSt codec sampleRate callId
      let outSt1 := outSetMediaParams p cs.outSt codec sampleRate
      ({ inSt := inSt1, outSt := outSt1, callId := some callId },
       [ConnEmit.callStartEvt callId,
        ConnEmit.pushed (PipeFrame.callStart callId codec sampleRate)], none)
    else if msg.event = some "XOFF" then
      ({ cs with outSt := setFlowControl cs.outSt true }, [], none)
    else if msg.event = some "XON" then
      ({ cs with outSt := setFlowControl cs.outSt false }, [], none)
    else
      match handleMessage p resample cs.inSt msg with
      | .ok (st1, fs) => ({ cs with inSt := st1 }, fs.map ConnEmit.pushed, none)
      | .error e => (cs, [], some e)
  | WireFrame.binaryData bs =>
    match handleMessage p resample cs.inSt
        { event := some "MEDIA", media := some (bytesToStr (b64EncodeBytes bs)) } with
    | .ok (st1, fs) => ({ cs with inSt := st1 }, fs.map ConnEmit.pushed, none)
    | .error e => (cs, [], some e)

/-- Receive loop over the frames the connection delivers: an escaped
exception from a step ends the loop there (it is caught by the
connection-level generic except handler) and the remaining frames are
never processed. -/
def connLoop (p : AsteriskWSParams) (resample : List Nat → List Nat) :
    ConnState → List WireFrame → ConnState × List ConnEmit × Option PyErr
  | cs, [] => (cs, [], none)
  | cs, w :: ws =>
    match connStep p resample cs w with
    | (cs1, es, some e) => (cs1, es, some e)
    | (cs1, es, none) =>
      let r := connLoop p resample cs1 ws
      (r.fst, es ++ r.snd.fst, r.snd.snd)

/-- Finally block of _handle_connection: on_call_end fires only when
the call_id variable is truthy; HangupFrame with that call_id and then
EndFrame are pushed unconditionally. -/
def finallyEmits (callId : Option String) : List ConnEmit :=
  (match callId with
   | some s => if s != "" then [ConnEmit.callEndEvt s] else []
   | none => []) ++
  [ConnEmit.pushed (PipeFrame.hangup callId), ConnEmit.pushed PipeFrame.endOfStream]

/-- Connection state at the top of _handle_connection: fresh input
and output transports of the server, with the websocket handed to the
output transport and no call_id yet. -/
def initConnState : ConnState :=
  { inSt := {}, outSt := setWebsocket initOutState, callId := none }

/-- Whole lifetime of one connection: the receive loop over the
delivered frames (however it ends: normal close, socket error, or an
escaped exception) followed by the finally block. -/
def handleConnection (p : AsteriskWSParams) (resample : List Nat → List Nat)
    (frames : List WireFrame) : List ConnEmit :=
  (connLoop p resample initConnState frames).snd.fst ++
  finallyEmits (connLoop p resample initConnState frames).fst.callId

/-- Condition under which one iteration of the send loop delivers its
chunk and continues: the generation observed at the per-chunk check
still equals the captured one, the flow gate is ready (or becomes
ready within the 5 second wait), and the websocket send succeeds. -/
def EnvOk (myGen : Nat) (e : ChunkEnv) : Prop :=
  e.gen = myGen ∧ (e.flowReady = true ∨ e.flowBecameReady = true) ∧ e.sendOk = true

/-- Outcome of the send loop when it stops at an environment that
fails one of the three per-chunk checks, in source order. -/
def envStop (myGen : Nat) (e : ChunkEnv) : SendOutcome :=
  if e.gen ≠ myGen then SendOutcome.droppedStale
  else if e.flowReady = false ∧ e.flowBecameReady = false then SendOutcome.flowTimeout
  else SendOutcome.sendError

/- ----------------------------------------------------------------
   Sanity checks of the stdlib models against observed CPython
   behavior (audioop and base64 of CPython 3.11).
   ---------------------------------------------------------------- -/

example : pyB64Decode "AAAA" = .ok [0, 0, 0] := by decide
example : pyB64Decode "abcd" = .ok [105, 183, 29] := by decide
example : pyB64Decode "ab==" = .ok [105] := by decide
example : pyB64Decode "abc" = .error PyErr.binasciiError := by decide
example : pyB64Decode "!!!!" = .ok [] := by decide
example : ulawEncodeSample 1 = 255 ∧ ulawDecodeSample 255 = 0 := by decide
example : alawEncodeSample (-32768) = 42 ∧ alawDecodeSample 42 = -32256 := by decide

/- ----------------------------------------------------------------
   Helper lemmas.
   ---------------------------------------------------------------- -/

/-- Unfolding lemma for one iteration of the send loop. -/
lemma runSendLoop_cons (myGen : Nat) (env : Nat → ChunkEnv) (c : List Nat)
    (rest : List (List Nat)) (k : Nat) :
    runSendLoop myGen env (c :: rest) k =
      if (env k).gen ≠ myGen then ([], SendOutcome.droppedStale)
      else if (env k).flowReady = false ∧ (env k).flowBecameReady = false then
        ([], SendOutcome.flowTimeout)
      else if (env k).sendOk = false then ([], SendOutcome.sendError)
      else ((c :: (runSendLoop myGen env rest (k + 1)).fst,
             (runSendLoop myGen env rest (k + 1)).snd)) := rfl

/-- When the first k environments pass and environment k fails a
check, the send loop delivers exactly the first k chunks and stops
with the outcome of the failed check. -/
lemma runSendLoop_stop (myGen : Nat) (env : Nat → ChunkEnv) :
    ∀ (chunks : List (List Nat)) (k0 k : Nat),
      k < chunks.length →
      (∀ j, j < k → EnvOk myGen (env (k0 + j))) →
      ¬ EnvOk myGen (env (k0 + k)) →
      runSendLoop myGen env chunks k0 = (chunks.take k, envStop myGen (env (k0 + k))) := by
  intro chunks
  induction chunks with
  | nil => intro k0 k hk _ _; exact absurd hk (by simp)
  | cons c rest ih =>
    intro k0 k hk hpass hfail
    cases k with
    | zero =>
      simp only [Nat.add_zero] at hfail ⊢
      rw [runSendLoop_cons, List.take_zero]
      unfold envStop
      by_cases h1 : (env k0).gen ≠ myGen
      · simp only [if_pos h1]
      · simp only [if_neg h1]
        by_cases h2 : (env k0).flowReady = false ∧ (env k0).flowBecameReady = false
        · simp only [if_pos h2]
        · simp only [if_neg h2]
          have h1e : (env k0).gen = myGen := not_not.mp h1
          have hor : (env k0).flowReady = true ∨ (env k0).flowBecameReady = true := by
            cases hx : (env k0).flowReady with
            | true => exact Or.inl rfl
            | false =>
              cases hy : (env k0).flowBecameReady with
              | true => exact Or.inr rfl
              | false => exact absurd ⟨hx, hy⟩ h2
          have hsend : (env k0).sendOk = false := by
            cases hz : (env k0).sendOk with
            | false => rfl
            | true => exact absurd ⟨h1e, hor, hz⟩ hfail
          simp only [if_pos hsend]
    | succ k1 =>
      have hhead : EnvOk myGen (env k0) := by
        have := hpass 0 (Nat.succ_pos _)
        simpa using this
      obtain ⟨hg, hfl, hs⟩ := hhead
      rw [runSendLoop_cons]
      rw [if_neg (fun hc => hc hg)]
      have hflow : ¬((env k0).flowReady = false ∧ (env k0).flowBecameReady = false) := by
        rcases hfl with h | h <;> simp [h]
      rw [if_neg hflow]
      rw [if_neg (by simp [hs])]
      have hidx : ∀ j, k0 + 1 + j = k0 + (j + 1) := by omega
      have hp2 : ∀ j, j < k1 → EnvOk myGen (env (k0 + 1 + j)) := by
        intro j hj
        rw [hidx j]
        exact hpass (j + 1) (by omega)
      have hf2 : ¬ EnvOk myGen (env (k0 + 1 + k1)) := by
        rw [hidx k1]
        exact hfail
      have hrec := ih (k0 + 1) k1 (Nat.lt_of_succ_lt_succ hk) hp2 hf2
      rw [hrec, hidx k1]
      rfl

/-- Every chunk delivered by the send loop is one of the prepared
chunks. -/
lemma runSendLoop_sent_mem (myGen : Nat) (env : Nat → ChunkEnv) :
    ∀ (chunks : List (List Nat)) (k0 : Nat) (c : List Nat),
      c ∈ (runSendLoop myGen env chunks k0).fst → c ∈ chunks := by
  intro chunks
  induction chunks with
  | nil => intro k0 c hc; simp [runSendLoop] at hc
  | cons d rest ih =>
    intro k0 c hc
    rw [runSendLoop_cons] at hc
    split_ifs at hc with h1 h2 h3
    · simp at hc
    · simp at hc
    · simp at hc
    · rcases List.mem_cons.mp hc with h | h
      · exact h ▸ List.mem_cons_self d rest
      · exact List.mem_cons_of_mem d (ih (k0 + 1) c h)

/-- Padding never shortens and always reaches the chunk size when the
input is no longer than it. -/
lemma padChunk_length (cs : Nat) (c : List Nat) (h : c.length ≤ cs) :
    (padChunk cs c).length = cs := by
  simp [padChunk]
  omega

/-- Empty input yields no chunks for any fuel. -/
lemma chunkifyAux_nil (fuel cs : Nat) : chunkifyAux fuel cs [] = [] := by
  cases fuel <;> rfl

/-- Every chunk produced by the slicing worker has exactly the chunk
size. -/
lemma chunkifyAux_mem_length (cs : Nat) :
    ∀ (fuel : Nat) (xs c : List Nat), c ∈ chunkifyAux fuel cs xs → c.length = cs := by
  intro fuel
  induction fuel with
  | zero => intro xs c hc; simp [chunkifyAux] at hc
  | succ n ih =>
    intro xs c hc
    cases xs with
    | nil => simp [chunkifyAux] at hc
    | cons x rest =>
      simp only [chunkifyAux] at hc
      rcases List.mem_cons.mp hc with rfl | hc2
      · apply padChunk_length
        have := List.length_take cs (x :: rest)
        omega
      · exact ih _ c hc2

/-- Every chunk produced by chunkify has exactly the chunk size. -/
lemma chunkify_mem_length (cs : Nat) (hcs : cs ≠ 0) (xs c : List Nat)
    (hc : c ∈ chunkify cs xs) : c.length = cs := by
  unfold chunkify at hc
  rw [if_neg hcs] at hc
  exact chunkifyAux_mem_length cs _ _ c hc

/-- Joining the chunks of the slicing worker recovers the input
followed by fewer than one chunk of zero padding, provided the fuel
covers the input. -/
lemma chunkifyAux_join (cs : Nat) (hcs : cs ≠ 0) :
    ∀ (fuel : Nat) (xs : List Nat), xs.length ≤ fuel →
      ∃ padLen, padLen < cs ∧
        (chunkifyAux fuel cs xs).flatten = xs ++ List.replicate padLen 0 := by
  intro fuel
  induction fuel with
  | zero =>
    intro xs hlen
    have hxs : xs = [] := List.length_eq_zero.mp (Nat.le_zero.mp hlen)
    subst hxs
    exact ⟨0, Nat.pos_of_ne_zero hcs, by simp [chunkifyAux]⟩
  | succ n ih =>
    intro xs hlen
    cases xs with
    | nil => exact ⟨0, Nat.pos_of_ne_zero hcs, by simp [chunkifyAux]⟩
    | cons x rest =>
      have hcs1 : 0 < cs := Nat.pos_of_ne_zero hcs
      simp only [chunkifyAux]
      by_cases hle : (x :: rest).length ≤ cs
      · have hdrop : (x :: rest).drop cs = [] := by
          apply List.eq_nil_of_length_eq_zero
          simp only [List.length_drop]
          omega
        have htake : (x :: rest).take cs = x :: rest := List.take_of_length_le hle
        rw [hdrop, chunkifyAux_nil]
        refine ⟨cs - (x :: rest).length, ?_, ?_⟩
        · have hpos : 0 < (x :: rest).length := by simp
          omega
        · simp [padChunk, htake]
      · have hmain : ((x :: rest).take cs).length = cs := by
          have := List.length_take cs (x :: rest)
          omega
        have hpad : padChunk cs ((x :: rest).take cs) = (x :: rest).take cs := by
          simp [padChunk, hmain]
        obtain ⟨padLen, hlt, hjoin⟩ := ih ((x :: rest).drop cs) (by
          simp only [List.length_drop, List.length_cons]
          simp only [List.length_cons] at hlen
          omega)
        refine ⟨padLen, hlt, ?_⟩
        simp only [List.flatten_cons, hpad, hjoin]
        rw [← List.append_assoc, List.take_append_drop]

/-- Joining the chunks recovers the encoded bytes followed by fewer
than one chunk of zero padding. -/
lemma chunkify_join (cs : Nat) (hcs : cs ≠ 0) (xs : List Nat) :
    ∃ padLen, padLen < cs ∧
      (chunkify cs xs).flatten = xs ++ List.replicate padLen 0 := by
  unfold chunkify
  rw [if_neg hcs]
  exact chunkifyAux_join cs hcs xs.length xs (Nat.le_refl _)

/-- Exceptions out of the base64 decoding loop are always the
binascii padding error. -/
lemma a2bBase64Loop_error_kind :
    ∀ (input : List Nat) (quadPos leftChar pads : Nat) (acc : List Nat) (e : PyErr),
      a2bBase64Loop input quadPos leftChar pads acc = .error e → e = PyErr.binasciiError := by
  intro input
  induction input with
  | nil =>
    intro q l pd acc e h
    by_cases hq : q = 0
    · simp [a2bBase64Loop, hq] at h
    · simp [a2bBase64Loop, hq] at h
      exact h.symm
  | cons c cs ih =>
    intro q l pd acc e h
    simp only [a2bBase64Loop] at h
    by_cases hc : c = 61
    · rw [if_pos hc] at h
      by_cases hq : q ≥ 2 ∧ q + (pd + 1) ≥ 4
      · rw [if_pos hq] at h
        exact absurd h (by simp)
      · rw [if_neg hq] at h
        exact ih _ _ _ _ _ h
    · rw [if_neg hc] at h
      cases hbv : b64CharVal c with
      | none =>
        rw [hbv] at h
        exact ih _ _ _ _ _ h
      | some v =>
        rw [hbv] at h
        rcases q with _ | _ | _ | q4 <;> exact ih _ _ _ _ _ h

/- ----------------------------------------------------------------
   Claim theorems.
   ---------------------------------------------------------------- -/

/-- C1: each flush() call increments the generation counter by exactly
one while every other operation of the output transport leaves it
unchanged (so the counter strictly increases under flush and never
decreases), and a _send_audio loop that captured an earlier generation
stops at the first per-chunk check observing a different counter
value: exactly the chunks before that check are sent, and the loop
returns normally (droppedStale) rather than failing the connection. -/
theorem c1_generation_monotone_and_truncation :
    (∀ (st : OutState) (sendOk : Bool),
       (flushOut st sendOk).fst.flushGeneration = st.flushGeneration + 1) ∧
    (∀ (p : AsteriskWSParams) (st : OutState) (codec : String) (rate : Nat),
       (outSetMediaParams p st codec rate).flushGeneration = st.flushGeneration) ∧
    (∀ (st : OutState) (paused : Bool),
       (setFlowControl st paused).flushGeneration = st.flushGeneration) ∧
    (∀ st : OutState, (setWebsocket st).flushGeneration = st.flushGeneration) ∧
    (∀ (myGen : Nat) (env : Nat → ChunkEnv) (chunks : List (List Nat)) (k : Nat),
       k < chunks.length →
       (∀ j, j < k → EnvOk myGen (env j)) →
       (env k).gen ≠ myGen →
       runSendLoop myGen env chunks 0 = (chunks.take k, SendOutcome.droppedStale)) := by
  refine ⟨?_, ?_, ?_, ?_, ?_⟩
  · intro st sendOk
    unfold flushOut
    by_cases h : st.hasWebsocket <;> cases sendOk <;> simp [h]
  · intro p st codec rate; rfl
  · intro st paused; cases paused <;> rfl
  · intro st; rfl
  · intro myGen env chunks k hk hpass hgen
    have hfail : ¬ EnvOk myGen (env (0 + k)) := by
      rw [Nat.zero_add]
      intro hok
      exact hgen hok.1
    have hp : ∀ j, j < k → EnvOk myGen (env (0 + j)) := by
      intro j hj
      rw [Nat.zero_add]
      exact hpass j hj
    have := runSendLoop_stop myGen env chunks 0 k hk hp hfail
    rw [this, Nat.zero_add]
    unfold envStop
    rw [if_pos hgen]

/-- Witness for C1 at a concrete run: generation 0 captured, the
environment reports generation 1 from chunk index 1 on, so exactly
the first chunk is delivered and the frame is truncated. -/
theorem c1_generation_witness :
    runSendLoop 0
      (fun k => if k = 0 then ChunkEnv.mk 0 true true true else ChunkEnv.mk 1 true true true)
      [[7], [8], [9]] 0 = ([[7]], SendOutcome.droppedStale) :=
  c1_generation_monotone_and_truncation.2.2.2.2 0
    (fun k => if k = 0 then ChunkEnv.mk 0 true true true else ChunkEnv.mk 1 true true true)
    [[7], [8], [9]] 1 (by decide)
    (by
      intro j hj
      have hj0 : j = 0 := by omega
      subst hj0
      exact ⟨rfl, Or.inl rfl, rfl⟩)
    (by decide)

/-- C4: the flow gate starts ready in the constructor state; a
_send_audio call on a state with a websocket and a configured chunk
size always returns a value rather than raising; and when the gate is
observed cleared at a per-chunk check and never becomes ready during
the bounded wait, the loop returns normally with outcome flowTimeout,
delivering none of the remaining chunks of the frame. -/
theorem c4_flow_gate_timeout :
    initOutState.flowReady = true ∧
    (∀ (resample : List Nat → List Nat) (st : OutState) (pcm : List Nat)
       (env : Nat → ChunkEnv),
       st.hasWebsocket = true → st.chunkSize ≠ 0 →
       ∃ r, sendPcm resample st pcm env = Except.ok r) ∧
    (∀ (myGen : Nat) (env : Nat → ChunkEnv) (chunks : List (List Nat)) (k : Nat),
       k < chunks.length →
       (∀ j, j < k → EnvOk myGen (env j)) →
       (env k).gen = myGen →
       (env k).flowReady = false →
       (env k).flowBecameReady = false →
       runSendLoop myGen env chunks 0 = (chunks.take k, SendOutcome.flowTimeout)) := by
  refine ⟨rfl, ?_, ?_⟩
  · intro resample st pcm env hws hcs
    unfold sendPcm
    rw [if_neg (by simp [hws])]
    rw [if_neg hcs]
    exact ⟨_, rfl⟩
  · intro myGen env chunks k hk hpass hgen hfr hfb
    have hfail : ¬ EnvOk myGen (env (0 + k)) := by
      rw [Nat.zero_add]
      rintro ⟨-, hor, -⟩
      rcases hor with h | h
      · rw [hfr] at h; exact Bool.false_ne_true h
      · rw [hfb] at h; exact Bool.false_ne_true h
    have hp : ∀ j, j < k → EnvOk myGen (env (0 + j)) := by
      intro j hj
      rw [Nat.zero_add]
      exact hpass j hj
    have := runSendLoop_stop myGen env chunks 0 k hk hp hfail
    rw [this, Nat.zero_add]
    unfold envStop
    rw [if_neg (fun hc => hc hgen), if_pos ⟨hfr, hfb⟩]

/-- Witness for C4: a concrete send on a configured state returns a
value, and a concrete loop whose gate stays cleared from the first
check on delivers nothing and times out. -/
theorem c4_flow_gate_timeout_witness :
    (∃ r, sendPcm id (outSetMediaParams {} (setWebsocket initOutState) "ulaw" 8000) []
            (fun _ => ChunkEnv.mk 0 false false true) = Except.ok r) ∧
    runSendLoop 0 (fun _ => ChunkEnv.mk 0 false false true) [[1], [2]] 0 =
      ([], SendOutcome.flowTimeout) :=
  ⟨c4_flow_gate_timeout.2.1 id (outSetMediaParams {} (setWebsocket initOutState) "ulaw" 8000)
      [] (fun _ => ChunkEnv.mk 0 false false true) (by decide) (by decide),
   c4_flow_gate_timeout.2.2 0 (fun _ => ChunkEnv.mk 0 false false true) [[1], [2]] 0
      (by decide) (by intro j hj; exact absurd hj (by omega)) rfl rfl rfl⟩

/-- C8: flush() increments the generation counter unconditionally and
first; the model is a total function, reflecting that a websocket send
failure is caught and swallowed, so the call never raises; without a
websocket no FLUSH_MEDIA event is emitted, and with a failing send no
event is emitted either, yet in every case the increment has taken
effect and nothing else of the state changes. -/
theorem c8_flush_best_effort :
    ∀ (st : OutState) (sendOk : Bool),
      (flushOut st sendOk).fst =
        { st with flushGeneration := st.flushGeneration + 1 } ∧
      (st.hasWebsocket = false → (flushOut st sendOk).snd = []) ∧
      (sendOk = false → (flushOut st sendOk).snd = []) := by
  intro st sendOk
  unfold flushOut
  by_cases h : st.hasWebsocket <;> cases sendOk <;> simp [h]

/-- Witness for C8 on the constructor state with a failing send: the
generation still advances from 0 to 1 and no event is emitted. -/
theorem c8_flush_best_effort_witness :
    (flushOut initOutState false).fst =
      { initOutState with flushGeneration := 1 } ∧
    (flushOut initOutState false).snd = [] :=
  ⟨(c8_flush_best_effort initOutState false).1,
   (c8_flush_best_effort initOutState false).2.1 rfl⟩

/-- C9: the constructor leaves chunk size 0, and any _send_audio call
on a state with a websocket but chunk size still 0 raises ValueError
from range(0, len, 0), whatever the audio payload, including the empty
one. -/
theorem c9_send_without_params_raises :
    initOutState.chunkSize = 0 ∧
    ∀ (resample : List Nat → List Nat) (st : OutState) (pcm : List Nat)
      (env : Nat → ChunkEnv),
      st.hasWebsocket = true → st.chunkSize = 0 →
      sendPcm resample st pcm env = .error PyErr.valueError := by
  refine ⟨rfl, ?_⟩
  intro resample st pcm env hws hcs
  unfold sendPcm
  rw [if_neg (by simp [hws])]
  rw [if_pos hcs]

/-- Witness for C9: the publicly reachable state obtained by only
setting the websocket on a fresh output transport makes _send_audio
raise ValueError even on an empty payload. -/
theorem c9_send_without_params_raises_witness :
    sendPcm id (setWebsocket initOutState) [] (fun _ => ChunkEnv.mk 0 true true true) =
      .error PyErr.valueError :=
  c9_send_without_params_raises.2 id (setWebsocket initOutState) []
    (fun _ => ChunkEnv.mk 0 true true true) rfl rfl

/-- C3: after set_media_params, the chunk size is the integer part of
sample_rate times ptime_ms over 1000, times two bytes per sample
(320 bytes at 8000 Hz and 20 ms); every chunk a subsequent
_send_audio call delivers has exactly that many bytes; and the
prepared chunks are the encoded bytes followed by fewer than one
chunk of zero padding, so a final partial chunk is zero-padded and
never sent short. -/
theorem c3_chunk_sizing (p : AsteriskWSParams) (st : OutState) (codec : String)
    (rate : Nat) (resample : List Nat → List Nat) (pcm : List Nat)
    (env : Nat → ChunkEnv) (sent : List (List Nat)) (outc : SendOutcome)
    (hpos : 0 < rate * p.ptimeMs / 1000)
    (hsend : sendPcm resample (outSetMediaParams p st codec rate) pcm env =
      .ok (sent, outc)) :
    (outSetMediaParams p st codec rate).chunkSize = (rate * p.ptimeMs / 1000) * 2 ∧
    (∀ c ∈ sent, c.length = (rate * p.ptimeMs / 1000) * 2) ∧
    (∀ xs : List Nat, ∃ padLen, padLen < (rate * p.ptimeMs / 1000) * 2 ∧
       (chunkify ((rate * p.ptimeMs / 1000) * 2) xs).flatten =
         xs ++ List.replicate padLen 0) := by
  have hcs : (outSetMediaParams p st codec rate).chunkSize =
      (rate * p.ptimeMs / 1000) * 2 := rfl
  have hcsne : (rate * p.ptimeMs / 1000) * 2 ≠ 0 := by omega
  refine ⟨hcs, ?_, ?_⟩
  · intro c hc
    unfold sendPcm at hsend
    by_cases hws : (outSetMediaParams p st codec rate).hasWebsocket = false
    · rw [if_pos hws] at hsend
      have hsent : sent = [] := by
        have := (Except.ok.injEq _ _).mp hsend
        exact (Prod.mk.injEq _ _ _ _).mp this.symm |>.1
      subst hsent
      simp at hc
    · rw [if_neg hws] at hsend
      rw [hcs] at hsend
      rw [if_neg hcsne] at hsend
      have hsent := ((Prod.mk.injEq _ _ _ _).mp ((Except.ok.injEq _ _).mp hsend).symm).1
      rw [hsent] at hc
      exact chunkify_mem_length _ hcsne _ c (runSendLoop_sent_mem _ _ _ 0 c hc)
  · intro xs
    exact chunkify_join _ hcsne xs

/-- Witness for C3 at the default parameters on a ulaw call at
8000 Hz: the chunk size is 320 bytes. -/
theorem c3_chunk_sizing_witness :
    (outSetMediaParams {} (setWebsocket initOutState) "ulaw" 8000).chunkSize = 320 ∧
    (∀ c ∈ ([] : List (List Nat)), c.length = 320) ∧
    (∀ xs : List Nat, ∃ padLen, padLen < 320 ∧
       (chunkify 320 xs).flatten = xs ++ List.replicate padLen 0) :=
  c3_chunk_sizing {} (setWebsocket initOutState) "ulaw" 8000 id []
    (fun _ => ChunkEnv.mk 0 true true true) [] SendOutcome.completed
    (by decide) (by decide)

/-- C2: evaluation of the code path the claim describes.  After
MEDIA_START and MEDIA_END (the session now Ended: running is false,
HangupFrame and EndFrame already emitted), a further MEDIA event with
a nonempty valid payload is NOT dropped: handle_message still decodes
it and emits an AudioRawFrame (the pcmChunk after endOfStream below),
because _handle_audio never consults the _running flag that
MEDIA_END cleared. -/
theorem c2_media_after_end_still_emits :
    runMessages {} id {}
      [{ event := some "MEDIA_START", codec := some "slin16", channel := some "C1" },
       { event := some "MEDIA_END" },
       { event := some "MEDIA", media := some "AAAA" }] =
      .ok ({ callId := some "C1", codec := "slin16", sampleRate := 16000,
             hasResampler := false, running := false },
           [PipeFrame.callStart "C1" "slin16" 16000,
            PipeFrame.hangup (some "C1"), PipeFrame.endOfStream,
            PipeFrame.pcmChunk [0, 0, 0] 16000 1]) := by
  decide

/-- C5 counterexample: the claimed round trip decode(encode(x)) == x
fails already at the 16-bit sample 1 (bytes 01 00), for both law
codecs: u-law gives back 0 and A-law gives back 8 — the companding to
8 bits quantizes and cannot be injective on 16-bit inputs. -/
theorem c5_roundtrip_counterexample :
    decodeForCodec "ulaw" (encodeForCodec "ulaw" [1, 0]) = [0, 0] ∧
    ([0, 0] : List Nat) ≠ [1, 0] ∧
    decodeForCodec "alaw" (encodeForCodec "alaw" [1, 0]) = [8, 0] ∧
    ([8, 0] : List Nat) ≠ [1, 0] := by
  decide

set_option maxRecDepth 100000 in
/-- C5 amended: the per-sample round trip that does hold goes the
other way around: re-encoding the decoded value gives back the wire
byte — for every A-law byte, and for every u-law byte except 0x7F
(negative zero, which re-encodes as positive zero 0xFF).  In
particular decode then encode is the identity on wire data, while
decode(encode(x)) only projects x onto the quantization grid. -/
theorem c5_roundtrip_amended :
    ∀ b : Nat, b < 256 →
      alawEncodeSample (alawDecodeSample b) = b ∧
      (b ≠ 0x7F → ulawEncodeSample (ulawDecodeSample b) = b) := by
  decide

/-- Witness for C5 amended at the wire byte 42. -/
theorem c5_roundtrip_amended_witness :
    alawEncodeSample (alawDecodeSample 42) = 42 ∧
    ulawEncodeSample (ulawDecodeSample 42) = 42 := by
  have h := c5_roundtrip_amended 42 (by decide)
  exact ⟨h.1, h.2 (by decide)⟩

/-- C6 counterexample: the codec string slin12 lies outside the set
named by the claim (ulaw, alaw, slin, slin16), yet the negotiated
rate for it is 12000, not the claimed default 8000 — the code table
has a fifth entry. -/
theorem c6_rate_table_counterexample :
    getSampleRate "slin12" = 12000 ∧
    ("slin12" ≠ "ulaw" ∧ "slin12" ≠ "alaw" ∧ "slin12" ≠ "slin" ∧
     "slin12" ≠ "slin16") ∧
    (12000 : Nat) ≠ 8000 := by
  decide

/-- C6 amended: the negotiated sample rate is a function of the codec
string alone per the fixed five-entry table ulaw, alaw, slin to 8000,
slin16 to 16000, slin12 to 12000, with every other codec string
defaulting to 8000; and a MEDIA_START handled by handle_message
stores exactly that rate for the (defaulted) codec field. -/
theorem c6_rate_table_amended :
    (getSampleRate "ulaw" = 8000 ∧ getSampleRate "alaw" = 8000 ∧
     getSampleRate "slin" = 8000 ∧ getSampleRate "slin16" = 16000 ∧
     getSampleRate "slin12" = 12000) ∧
    (∀ c : String, c ≠ "ulaw" → c ≠ "alaw" → c ≠ "slin" → c ≠ "slin16" →
       c ≠ "slin12" → getSampleRate c = 8000) ∧
    (∀ (p : AsteriskWSParams) (resample : List Nat → List Nat) (st st1 : InState)
       (msg : InMsg) (fs : List PipeFrame),
       msg.event = some "MEDIA_START" →
       handleMessage p resample st msg = .ok (st1, fs) →
       st1.sampleRate = getSampleRate (msg.codec.getD "slin16")) := by
  refine ⟨by decide, ?_, ?_⟩
  · intro c h1 h2 h3 h4 h5
    unfold getSampleRate
    rw [if_neg h1, if_neg h2, if_neg h3, if_neg h4, if_neg h5]
  · intro p resample st st1 msg fs hm hh
    unfold handleMessage at hh
    rw [if_pos hm] at hh
    have h2 : st1 = inSetMediaParams p st (msg.codec.getD "slin16")
        (getSampleRate (msg.codec.getD "slin16")) (msg.channel.getD "unknown") :=
      (congrArg Prod.fst (Except.ok.inj hh)).symm
    rw [h2]
    rfl

/-- Witness for C6 amended: an unknown codec string falls back to
8000, and a concrete handled MEDIA_START stores the table rate. -/
theorem c6_rate_table_amended_witness :
    getSampleRate "opus" = 8000 ∧
    (inSetMediaParams {} {} "ulaw" (getSampleRate "ulaw") "C1").sampleRate =
      getSampleRate "ulaw" :=
  ⟨c6_rate_table_amended.2.1 "opus" (by decide) (by decide) (by decide) (by decide)
      (by decide),
   c6_rate_table_amended.2.2 {} id {}
      (inSetMediaParams {} {} "ulaw" (getSampleRate "ulaw") "C1")
      { event := some "MEDIA_START", codec := some "ulaw", channel := some "C1" }
      [PipeFrame.callStart "C1" "ulaw" (getSampleRate "ulaw")] rfl rfl⟩

/-- C7 counterexample: a connection whose receive loop exits without
ever seeing MEDIA_START (here: the socket closes with no frames)
pushes HangupFrame and EndFrame but does NOT fire on_call_end — the
finally block guards the notification behind the truthiness of the
call_id variable, so the claimed unconditional on_call_end is false. -/
theorem c7_lifecycle_counterexample :
    handleConnection {} id [] =
      [ConnEmit.pushed (PipeFrame.hangup none), ConnEmit.pushed PipeFrame.endOfStream] ∧
    (handleConnection {} id []).all (fun e => !isCallEndEvt e) = true := by
  exact ⟨rfl, rfl⟩

/-- C7 amended: whenever the receive loop exits, the finally block
runs; it fires on_call_end with the call id and then pushes
HangupFrame followed by EndFrame, in that order, but only when a
MEDIA_START gave the connection a truthy call id — when no
MEDIA_START was received (or the channel id was empty), only
HangupFrame and EndFrame are pushed, with no on_call_end. -/
theorem c7_lifecycle_amended :
    ∀ (p : AsteriskWSParams) (resample : List Nat → List Nat)
      (frames : List WireFrame),
      (∀ s : String,
        (connLoop p resample initConnState frames).fst.callId = some s → s ≠ "" →
        handleConnection p resample frames =
          (connLoop p resample initConnState frames).snd.fst ++
          [ConnEmit.callEndEvt s, ConnEmit.pushed (PipeFrame.hangup (some s)),
           ConnEmit.pushed PipeFrame.endOfStream]) ∧
      (pyTruthy (connLoop p resample initConnState frames).fst.callId = false →
        handleConnection p resample frames =
          (connLoop p resample initConnState frames).snd.fst ++
          [ConnEmit.pushed
             (PipeFrame.hangup (connLoop p resample initConnState frames).fst.callId),
           ConnEmit.pushed PipeFrame.endOfStream]) := by
  intro p resample frames
  constructor
  · intro s hs hne
    unfold handleConnection
    rw [hs]
    simp only [finallyEmits]
    rw [if_pos (bne_iff_ne.mpr hne)]
    rfl
  · intro hfalse
    unfold handleConnection
    cases hcid : (connLoop p resample initConnState frames).fst.callId with
    | none => rfl
    | some s =>
      rw [hcid] at hfalse
      have hb : (s != "") = false := hfalse
      simp only [finallyEmits]
      rw [if_neg (by simp [hb])]
      rfl

/-- Witness for C7 amended: one MEDIA_START gives call id C1, and the
connection then ends with on_call_end, Hangup, End in order. -/
theorem c7_lifecycle_amended_witness :
    handleConnection {} id
      [WireFrame.text { event := some "MEDIA_START", codec := some "ulaw",
                        channel := some "C1" }] =
      [ConnEmit.callStartEvt "C1",
       ConnEmit.pushed (PipeFrame.callStart "C1" "ulaw" 8000),
       ConnEmit.callEndEvt "C1",
       ConnEmit.pushed (PipeFrame.hangup (some "C1")),
       ConnEmit.pushed PipeFrame.endOfStream] := by
  have h := (c7_lifecycle_amended {} id
      [WireFrame.text { event := some "MEDIA_START", codec := some "ulaw",
                        channel := some "C1" }]).1 "C1" (by decide) (by decide)
  rw [h]
  decide

/-- C10 counterexample: the media value made of four exclamation
marks is nonempty and is not valid base64, yet no exception
propagates: the CPython decoder discards non-alphabet characters, is
left with a well-padded empty payload, and the session emits an
(empty) AudioRawFrame while the receive loop continues — so the
claimed unconditional error propagation for invalid base64 is false. -/
theorem c10_invalid_base64_counterexample :
    connLoop {} id initConnState
      [WireFrame.text { event := some "MEDIA", media := some "!!!!" }] =
      (initConnState, [ConnEmit.pushed (PipeFrame.pcmChunk [] 16000 1)], none) := by
  decide

/-- Dispatch fact: a message whose event field is MEDIA goes to the
media handler. -/
lemma handleMessage_media_dispatch (p : AsteriskWSParams)
    (resample : List Nat → List Nat) (st : InState) (msg : InMsg)
    (hev : msg.event = some "MEDIA") :
    handleMessage p resample st msg = handleMediaMsg p resample st msg := by
  unfold handleMessage
  rw [hev]
  rw [if_neg (by decide), if_pos rfl]

/-- C10 amended: when base64 decoding of the media field does raise
(a partial quad is left over, the binascii padding error), the error
propagates out of handle_message; it is not a JSONDecodeError, so the
inner handler of the receive loop does not catch it: the loop stops
there — remaining frames are never processed, no media frame is
emitted — and the connection-level finally block still runs. -/
theorem c10_invalid_base64_amended :
    ∀ (p : AsteriskWSParams) (resample : List Nat → List Nat) (s : String)
      (rest : List WireFrame) (e : PyErr),
      pyB64Decode s = .error e →
      e = PyErr.binasciiError ∧
      e ≠ PyErr.jsonDecodeError ∧
      connLoop p resample initConnState
        (WireFrame.text { event := some "MEDIA", media := some s } :: rest) =
        (initConnState, [], some e) ∧
      handleConnection p resample
        (WireFrame.text { event := some "MEDIA", media := some s } :: rest) =
        finallyEmits none := by
  intro p resample s rest e herr
  have hkind : e = PyErr.binasciiError := by
    unfold pyB64Decode at herr
    exact a2bBase64Loop_error_kind _ _ _ _ _ _ herr
  subst hkind
  have hne : s ≠ "" := by
    intro h
    subst h
    have hok : pyB64Decode "" = Except.ok [] := rfl
    rw [hok] at herr
    exact absurd herr (by simp)
  have hmsg : handleMessage p resample initConnState.inSt
      { event := some "MEDIA", media := some s } = .error PyErr.binasciiError := by
    rw [handleMessage_media_dispatch p resample _ _ rfl]
    simp only [handleMediaMsg]
    rw [if_neg hne, herr]
    rfl
  have hstep : connStep p resample initConnState
      (WireFrame.text { event := some "MEDIA", media := some s }) =
      (initConnState, [], some PyErr.binasciiError) := by
    simp only [connStep]
    rw [if_neg (by decide), if_neg (by decide), if_neg (by decide), hmsg]
  have hloop : connLoop p resample initConnState
      (WireFrame.text { event := some "MEDIA", media := some s } :: rest) =
      (initConnState, [], some PyErr.binasciiError) := by
    simp only [connLoop]
    rw [hstep]
  refine ⟨rfl, by decide, hloop, ?_⟩
  unfold handleConnection
  rw [hloop]
  rfl

/-- Witness for C10 amended: three base64 alphabet characters leave a
partial quad, so decoding raises; with MEDIA carrying that value the
receive loop stops at that frame (a following frame is ignored) and
the teardown of a call-less connection runs. -/
theorem c10_invalid_base64_amended_witness :
    PyErr.binasciiError = PyErr.binasciiError ∧
    PyErr.binasciiError ≠ PyErr.jsonDecodeError ∧
    connLoop {} id initConnState
      [WireFrame.text { event := some "MEDIA", media := some "abc" },
       WireFrame.text { event := some "MEDIA_END" }] =
      (initConnState, [], some PyErr.binasciiError) ∧
    handleConnection {} id
      [WireFrame.text { event := some "MEDIA", media := some "abc" },
       WireFrame.text { event := some "MEDIA_END" }] =
      finallyEmits none :=
  c10_invalid_base64_amended {} id "abc"
    [WireFrame.text { event := some "MEDIA_END" }] PyErr.binasciiError (by decide)
